import Mathlib

/-!
Shallow embedding of the storage layer of the insurance MLOps project:
`src/cloud_storage/azure_storage.py`, `src/configuration/azure_connection.py`
and `src/entity/s3_estimator.py`.

Modelling choices:
* Python strings that carry file or blob content are modelled as `List Char`.
* The remote object store is a structure of two finite maps (container names
  and blob contents keyed by container/blob name); the local filesystem is a
  map from path to content.
* Each SDK network call is modelled by its observable outcome; a `netOk`
  flag injects transport failures where a claim needs them.
* Raised Python exceptions become `Except` errors, distinguished by type.
-/

namespace InsurancePipeline

/-- Python exception values as the embedded code distinguishes them by type. -/
inductive PyError where
  | valueError : String → PyError
  | azureError : String → PyError
  | osError : String → PyError
  | nameError : String → PyError
  /-- Modelled from the spec: the domain error type MyException of
  src.exception (module absent from the sources), described as a single
  domain error type carrying the original cause, distinct from the
  passthrough SDK error types. -/
  | myException : PyError → PyError
deriving DecidableEq, Repr

/-- Whether an error value is the domain error MyException. -/
def PyError.isMyException : PyError → Bool
  | .myException _ => true
  | _ => false

/-- Whether a Python call returned normally rather than raising. -/
def exceptOk {α : Type} : Except PyError α → Bool
  | .ok _ => true
  | .error _ => false

/-- File and blob contents: Python byte or text payloads as character lists. -/
abbrev Bytes := List Char

/-- The local filesystem: a map from path to file content. -/
abbrev LocalFS := String → Option Bytes

/-- The empty local filesystem. -/
def fsEmpty : LocalFS := fun _ => none

/-- Writing a file at a path: opening for write creates the file or truncates
an existing one, then the given content is its new content. -/
def fsSet (fs : LocalFS) (p : String) (v : Bytes) : LocalFS :=
  fun q => if q = p then some v else fs q

/-- Deleting a file at a path. -/
def fsDel (fs : LocalFS) (p : String) : LocalFS :=
  fun q => if q = p then none else fs q

/-- The remote object store: which containers exist, and the content of each
blob keyed by container name and blob name. -/
structure RemoteStore where
  containers : String → Bool
  blobs : String × String → Option Bytes

/-- Storing a blob (upload with overwrite). -/
def setBlob (rs : RemoteStore) (c b : String) (v : Bytes) : RemoteStore :=
  { rs with blobs := fun k => if k = (c, b) then some v else rs.blobs k }

/-- os.remove: delete the file at the path, raising FileNotFoundError when it
does not exist. -/
def os_remove (fs : LocalFS) (p : String) : Except PyError LocalFS :=
  match fs p with
  | some _ => .ok (fsDel fs p)
  | none => .error (.osError "No such file or directory")

/-- Python truthiness of the optional connection string, as tested by the two
`if not connection_string` statements: None and the empty string are falsy. -/
def truthy : Option String → Bool
  | none => false
  | some s => if s = "" then false else true

/-- AzureBlobStorageService.__init__ in azure_storage.py: resolve the
connection string from the explicit argument, falling back to the environment
variable AZURE_STORAGE_CONNECTION_STRING when the argument is falsy, and
raise ValueError when the resolved value is still falsy. Returns the resolved
connection string the BlobServiceClient is built from. -/
def AzureBlobStorageService_init (connection_string : Option String)
    (env : Option String) : Except PyError String :=
  let cs := if truthy connection_string then connection_string else env
  match cs with
  | some s =>
    if s = "" then .error (.valueError "Azure Storage connection string is required.")
    else .ok s
  | none => .error (.valueError "Azure Storage connection string is required.")

/-- container_exists in azure_storage.py: delegates to container_client.exists();
in a fault-free run this is membership of the name in the store. The
surrounding try/except only logs and re-raises, leaving the result unchanged. -/
def container_exists (rs : RemoteStore) (container_name : String) : Bool :=
  rs.containers container_name

/-- create_container in azure_storage.py: when container_client.exists() is
false the container is created, otherwise only an informational log is
emitted and the store is untouched. -/
def create_container (rs : RemoteStore) (container_name : String) : RemoteStore :=
  if container_exists rs container_name then rs
  else { rs with containers := fun n => if n = container_name then true else rs.containers n }

/-- Outcome of the SDK call blob_client.exists() in a fault-free run: whether
the blob is present in the store. -/
def sdkBlobExists (rs : RemoteStore) (c b : String) : Except PyError Bool :=
  .ok ((rs.blobs (c, b)).isSome)

/-- blob_exists in azure_storage.py, as a function of the outcome of the SDK
call blob_client.exists(): on success the boolean is returned, on a raised
error the except block logs and re-raises the original error unchanged. -/
def blob_exists (sdk : Except PyError Bool) : Except PyError Bool :=
  match sdk with
  | .ok r => .ok r
  | .error e => .error e

/-- upload_file in azure_storage.py: open the local file for reading (raising
FileNotFoundError when it is absent), then upload_blob with overwrite=True;
on a raised error the except block logs and re-raises. -/
def upload_file (fs : LocalFS) (rs : RemoteStore)
    (file_path container_name blob_name : String) (netOk : Bool) :
    Except PyError Unit × RemoteStore :=
  match fs file_path with
  | none => (.error (.osError "No such file or directory"), rs)
  | some content =>
    if netOk then (.ok (), setBlob rs container_name blob_name content)
    else (.error (.azureError "connection failure"), rs)

/-- download_blob in azure_storage.py. The destination is opened with mode wb
(created, or truncated to empty) before blob_client.download_blob() is
issued; the fetched content is then written. On a raised fetch error the
except block logs and re-raises, after the truncation already happened. -/
def download_blob (rs : RemoteStore) (fs : LocalFS)
    (container_name blob_name file_path : String) (netOk : Bool) :
    Except PyError Unit × LocalFS :=
  let fs1 := fsSet fs file_path []
  match (if netOk then
           match rs.blobs (container_name, blob_name) with
           | some content => Except.ok content
           | none => Except.error (PyError.azureError "The specified blob does not exist.")
         else Except.error (PyError.azureError "connection failure")) with
  | .ok content => (.ok (), fsSet fs1 file_path content)
  | .error e => (.error e, fs1)

/-- Splitting a character list at every occurrence of a separator, as the
text-level semantics of field and line splitting in CSV parsing. -/
def splitSep (sep : Char) : Bytes → List Bytes
  | [] => [[]]
  | c :: cs =>
    let r := splitSep sep cs
    if c = sep then [] :: r else (c :: r.headD []) :: r.tail

/-- Joining character lists with a separator, as the text-level semantics of
comma-separated field serialization. -/
def joinSep (sep : Char) : List Bytes → Bytes
  | [] => []
  | [x] => x
  | x :: y :: t => x ++ sep :: joinSep sep (y :: t)

/-- A pandas DataFrame at the level this code observes it: ordered column
names and rows of textual cell values. -/
structure DataFrame where
  cols : List Bytes
  rows : List (List Bytes)
deriving DecidableEq, Repr

/-- df.to_csv(csv_buffer, index=False) in upload_dataframe_as_csv: a header
line of the column names followed by one line per row, fields separated by
commas, every line terminated by a newline, and no index column. -/
def to_csv (df : DataFrame) : Bytes :=
  (joinSep ',' df.cols :: df.rows.map (joinSep ','))
    |>.foldr (fun l acc => l ++ '\n' :: acc) []

/-- pd.read_csv in read_blob_as_dataframe: split the text into lines (blank
lines skipped, as with the default skip_blank_lines), the first line giving
the column names and the remaining lines the rows, fields split on commas. -/
def read_csv (content : Bytes) : DataFrame :=
  match (splitSep '\n' content).filter (fun l => l ≠ []) with
  | [] => ⟨[], []⟩
  | header :: rest => ⟨splitSep ',' header, rest.map (splitSep ',')⟩

/-- upload_dataframe_as_csv in azure_storage.py, fault-free run: serialize
with to_csv(index=False) and upload_blob with overwrite=True. -/
def upload_dataframe_as_csv (rs : RemoteStore) (df : DataFrame)
    (container_name blob_name : String) : RemoteStore :=
  setBlob rs container_name blob_name (to_csv df)

/-- read_blob_as_dataframe in azure_storage.py, fault-free network: download
the blob content, decode and parse with read_csv; a missing blob raises, and
the except block logs and re-raises the error unchanged. -/
def read_blob_as_dataframe (rs : RemoteStore) (container_name blob_name : String) :
    Except PyError DataFrame :=
  match rs.blobs (container_name, blob_name) with
  | some content => .ok (read_csv content)
  | none => .error (.azureError "The specified blob does not exist.")

/-- Dataframes whose text round-trip is lossless: at least one column, every
row as wide as the header, and every field (column name or cell) nonempty and
free of the comma and newline separators, so that CSV quoting, blank-line
skipping and NaN/type coercion never kick in. -/
abbrev csvExact (df : DataFrame) : Prop :=
  df.cols ≠ [] ∧
  (∀ c ∈ df.cols, c ≠ [] ∧ ',' ∉ c ∧ '\n' ∉ c) ∧
  (∀ r ∈ df.rows, r.length = df.cols.length ∧ ∀ x ∈ r, x ≠ [] ∧ ',' ∉ x ∧ '\n' ∉ x)

/-- AzureBlobClient.__init__ in azure_connection.py: a class-level singleton
slot. When the slot is empty the environment variable is read and a generic
Exception is raised when it is unset (None); otherwise the cached handle is
reused without consulting the environment at all. The result is the handle
assigned to the instance together with the new class slot; a handle is
identified by the connection string the BlobServiceClient was built from. -/
def AzureBlobClient_init (class_slot : Option String) (env : Option String) :
    Except PyError (String × Option String) :=
  match class_slot with
  | some handle => .ok (handle, some handle)
  | none =>
    match env with
    | none => .error (.valueError "Environment variable is not set.")
    | some cs => .ok (cs, some cs)

/-- Modelled from the spec: the deserialized model object of
src.entity.estimator.MyModel (module absent from the sources), opaque except
for a predict capability taking tabular input. -/
structure MyModel where
  predictFn : DataFrame → List Int

/-- The expression pickle.load(model_file) as it stands in s3_estimator.py:
this module never imports pickle (the import pickle statement sits only in
azure_storage.py, whose module namespace is not shared), so evaluating the
name raises NameError regardless of the downloaded content. -/
def pickle_load_as_written : Bytes → Except PyError MyModel :=
  fun _ => .error (.nameError "name pickle is not defined")

/-- load_model in s3_estimator.py: download the model blob to the fixed local
path temp_model.pkl, open that file and deserialize it, remove the temporary
file, and return the model; any error raised inside the try block is wrapped
in the domain error MyException. The deserialize parameter is the semantics
of the expression pickle.load(model_file) in this module. -/
def load_model (rs : RemoteStore) (fs : LocalFS)
    (container_name model_path : String) (netOk : Bool)
    (deserialize : Bytes → Except PyError MyModel) :
    Except PyError MyModel × LocalFS :=
  let temp_file_path := "temp_model.pkl"
  match download_blob rs fs container_name model_path temp_file_path netOk with
  | (.error e, fs1) => (.error (.myException e), fs1)
  | (.ok _, fs1) =>
    match fs1 temp_file_path with
    | none => (.error (.myException (.osError "No such file or directory")), fs1)
    | some content =>
      match deserialize content with
      | .error e => (.error (.myException e), fs1)
      | .ok model =>
        match os_remove fs1 temp_file_path with
        | .error e => (.error (.myException e), fs1)
        | .ok fs2 => (.ok model, fs2)

/-- save_model in s3_estimator.py: upload the local file to the fixed
artifact path; when remove is set, delete the local file afterwards; any
error raised inside the try block is wrapped in MyException. Returns the
result together with the final local filesystem and remote store. -/
def save_model (fs : LocalFS) (rs : RemoteStore)
    (container_name model_path from_file : String) (remove : Bool) (netOk : Bool) :
    Except PyError Unit × LocalFS × RemoteStore :=
  match upload_file fs rs from_file container_name model_path netOk with
  | (.error e, rs1) => (.error (.myException e), fs, rs1)
  | (.ok _, rs1) =>
    if remove then
      match os_remove fs from_file with
      | .error e => (.error (.myException e), fs, rs1)
      | .ok fs1 => (.ok (), fs1, rs1)
    else (.ok (), fs, rs1)

/-- is_model_present in s3_estimator.py, as a function of the outcome of the
SDK existence check: delegates to blob_exists; only the domain error
MyException is caught (printed, and False returned); an error of any other
type raised by the check propagates to the caller. -/
def is_model_present (sdk : Except PyError Bool) : Except PyError Bool :=
  match blob_exists sdk with
  | .ok r => .ok r
  | .error (.myException _) => .ok false
  | .error e => .error e

/-- The mutable state of a Proj1EstimatorAzure instance, together with the
local filesystem it works on and an instrumentation counter of how many
download_blob invocations have been performed through it. -/
structure EstState where
  loaded_model : Option MyModel
  fs : LocalFS
  downloads : Nat

/-- load_model lifted to the adapter state: each call performs exactly one
download_blob invocation, updates the local filesystem, and never writes the
loaded_model slot. -/
def load_model_st (rs : RemoteStore) (container_name model_path : String)
    (netOk : Bool) (deserialize : Bytes → Except PyError MyModel)
    (s : EstState) : Except PyError MyModel × EstState :=
  let r := load_model rs s.fs container_name model_path netOk deserialize
  (r.1, { s with fs := r.2, downloads := s.downloads + 1 })

/-- predict in s3_estimator.py: when the loaded_model slot is empty, call
load_model and store its result in the slot, then delegate to the model own
predict method with the given dataframe; an error raised inside the try
block is wrapped in MyException (so a load failure, itself already a
MyException, is wrapped a second time). -/
def predict (rs : RemoteStore) (container_name model_path : String)
    (netOk : Bool) (deserialize : Bytes → Except PyError MyModel)
    (s : EstState) (dataframe : DataFrame) :
    Except PyError (List Int) × EstState :=
  match s.loaded_model with
  | some m => (.ok (m.predictFn dataframe), s)
  | none =>
    match load_model_st rs container_name model_path netOk deserialize s with
    | (.ok m, s1) => (.ok (m.predictFn dataframe), { s1 with loaded_model := some m })
    | (.error e, s1) => (.error (.myException e), s1)

/-- A remote store holding one model blob at models/model.pkl. -/
def rsModel : RemoteStore :=
  { containers := fun _ => true
    blobs := fun k => if k = ("models", "model.pkl") then some ['x'] else none }

/-- The empty remote store. -/
def rsEmpty : RemoteStore := { containers := fun _ => false, blobs := fun _ => none }

/-- A deserializer that succeeds, modelling a well-formed pickle payload. -/
def deser_ok : Bytes → Except PyError MyModel := fun _ => .ok ⟨fun _ => [0]⟩

/-- A two-column, one-row dataframe used by concrete witnesses. -/
def dfW : DataFrame := ⟨[['a'], ['b']], [[['1'], ['2']]]⟩

/-- A local filesystem holding one model file. -/
def fsW : LocalFS := fsSet fsEmpty "model.pkl" ['m']

/-- A fresh adapter state: empty model slot, empty filesystem, no downloads. -/
def estFresh : EstState := ⟨none, fsEmpty, 0⟩

theorem splitSep_ne_nil (sep : Char) (l : Bytes) : splitSep sep l ≠ [] := by
  cases l with
  | nil => simp [splitSep]
  | cons c cs =>
    simp only [splitSep]
    split <;> simp

theorem splitSep_no_sep (sep : Char) (x : Bytes) (h : sep ∉ x) :
    splitSep sep x = [x] := by
  induction x with
  | nil => rfl
  | cons c cs ih =>
    rw [List.mem_cons] at h
    push_neg at h
    obtain ⟨h1, h2⟩ := h
    have hc : ¬ c = sep := fun hcc => h1 hcc.symm
    simp [splitSep, hc, ih h2]

theorem splitSep_append_sep (sep : Char) (x r : Bytes) (h : sep ∉ x) :
    splitSep sep (x ++ sep :: r) = x :: splitSep sep r := by
  induction x with
  | nil => simp [splitSep]
  | cons c cs ih =>
    rw [List.mem_cons] at h
    push_neg at h
    obtain ⟨h1, h2⟩ := h
    have hc : ¬ c = sep := fun hcc => h1 hcc.symm
    simp [splitSep, hc, ih h2]

theorem splitSep_terminated (sep : Char) (ls : List Bytes)
    (h : ∀ l ∈ ls, sep ∉ l) :
    splitSep sep (ls.foldr (fun l acc => l ++ sep :: acc) []) = ls ++ [[]] := by
  induction ls with
  | nil => simp [splitSep]
  | cons l ls ih =>
    simp only [List.foldr_cons]
    rw [splitSep_append_sep sep l _ (h l (List.mem_cons_self l ls))]
    rw [ih (fun x hx => h x (List.mem_cons_of_mem _ hx))]
    rfl

theorem joinSep_ne_nil (sep : Char) (xs : List Bytes) (hne : xs ≠ [])
    (h : ∀ x ∈ xs, x ≠ []) : joinSep sep xs ≠ [] := by
  match xs with
  | [] => exact absurd rfl hne
  | [x] => simpa [joinSep] using h x (by simp)
  | x :: y :: t => simp [joinSep]

theorem not_mem_joinSep (sep c : Char) (hne : c ≠ sep) :
    ∀ xs : List Bytes, (∀ x ∈ xs, c ∉ x) → c ∉ joinSep sep xs
  | [] => fun _ => by simp [joinSep]
  | [x] => fun h => by simpa [joinSep] using h x (by simp)
  | x :: y :: t => fun h => by
    simp only [joinSep, List.mem_append, List.mem_cons]
    push_neg
    exact ⟨h x (by simp), hne, not_mem_joinSep sep c hne (y :: t)
      (fun z hz => h z (List.mem_cons_of_mem _ hz))⟩

theorem splitSep_joinSep (sep : Char) :
    ∀ xs : List Bytes, xs ≠ [] → (∀ x ∈ xs, sep ∉ x) →
      splitSep sep (joinSep sep xs) = xs
  | [], hne, _ => absurd rfl hne
  | [x], _, h => by
    simp only [joinSep]
    exact splitSep_no_sep sep x (h x (by simp))
  | x :: y :: t, _, h => by
    simp only [joinSep]
    rw [splitSep_append_sep sep x _ (h x (by simp))]
    rw [splitSep_joinSep sep (y :: t) (by simp)
      (fun z hz => h z (List.mem_cons_of_mem _ hz))]

theorem read_csv_to_csv (df : DataFrame) (h : csvExact df) :
    read_csv (to_csv df) = df := by
  obtain ⟨cols, rows⟩ := df
  obtain ⟨hcols, hcolf, hrows⟩ := h
  have hnl : ('\n' : Char) ≠ ',' := by decide
  have hrne : ∀ r ∈ rows, r ≠ [] := by
    intro r hr hemp
    have hlen := (hrows r hr).1
    rw [hemp] at hlen
    simp only [List.length_nil] at hlen
    exact hcols (List.length_eq_zero.mp hlen.symm)
  have hsplit : splitSep '\n' (to_csv ⟨cols, rows⟩) =
      (joinSep ',' cols :: rows.map (joinSep ',')) ++ [[]] := by
    unfold to_csv
    apply splitSep_terminated
    intro l hl
    rcases List.mem_cons.mp hl with h1 | h2
    · exact h1 ▸ not_mem_joinSep ',' '\n' hnl cols (fun c hc => (hcolf c hc).2.2)
    · obtain ⟨r, hr, rfl⟩ := List.mem_map.mp h2
      exact not_mem_joinSep ',' '\n' hnl r (fun x hx => ((hrows r hr).2 x hx).2.2)
  have hheadne : joinSep ',' cols ≠ [] :=
    joinSep_ne_nil ',' cols hcols (fun c hc => (hcolf c hc).1)
  have hfilter : ((joinSep ',' cols :: rows.map (joinSep ',')) ++ [[]]).filter
      (fun l => l ≠ []) = joinSep ',' cols :: rows.map (joinSep ',') := by
    rw [List.filter_append]
    have h2 : ([[]] : List Bytes).filter (fun l => l ≠ []) = [] := by simp
    rw [h2, List.append_nil]
    apply List.filter_eq_self.mpr
    intro a ha
    rcases List.mem_cons.mp ha with h1 | h2
    · subst h1; simpa using hheadne
    · obtain ⟨r, hr, rfl⟩ := List.mem_map.mp h2
      simpa using joinSep_ne_nil ',' r (hrne r hr)
        (fun x hx => ((hrows r hr).2 x hx).1)
  have hcols2 : splitSep ',' (joinSep ',' cols) = cols :=
    splitSep_joinSep ',' cols hcols (fun c hc => (hcolf c hc).2.1)
  have hrows2 : (rows.map (joinSep ',')).map (splitSep ',') = rows := by
    rw [List.map_map]
    have hpt : ∀ r ∈ rows, (splitSep ',' ∘ joinSep ',') r = r := by
      intro r hr
      exact splitSep_joinSep ',' r (hrne r hr)
        (fun x hx => ((hrows r hr).2 x hx).2.1)
    calc rows.map (splitSep ',' ∘ joinSep ',') = rows.map id := List.map_congr_left hpt
      _ = rows := List.map_id rows
  unfold read_csv
  rw [hsplit, hfilter]
  simp [hcols2, hrows2]

theorem download_blob_dest (rs : RemoteStore) (fs : LocalFS) (c b path : String)
    (netOk : Bool) :
    ((download_blob rs fs c b path netOk).2 path).isSome = true ∧
    (exceptOk (download_blob rs fs c b path netOk).1 = false →
      (download_blob rs fs c b path netOk).2 path = some []) := by
  unfold download_blob
  cases netOk
  · simp [fsSet, exceptOk]
  · cases h : rs.blobs (c, b) <;> simp [fsSet, exceptOk, h]

/-- C1 (amended): in load_model the temporary file temp_model.pkl is removed
only on the success path: when the call returns a model the file is gone,
and whenever the call raises (download failure or deserialization failure,
both wrapped in MyException) the temporary file remains on disk after the
call completes. -/
theorem C1_temp_removed_iff_success (rs : RemoteStore) (fs : LocalFS)
    (c p : String) (netOk : Bool) (d : Bytes → Except PyError MyModel) :
    (exceptOk (load_model rs fs c p netOk d).1 = true →
      (load_model rs fs c p netOk d).2 "temp_model.pkl" = none) ∧
    (exceptOk (load_model rs fs c p netOk d).1 = false →
      ((load_model rs fs c p netOk d).2 "temp_model.pkl").isSome = true) := by
  simp only [load_model]
  rcases hdl : download_blob rs fs c p "temp_model.pkl" netOk with ⟨r1, fs1⟩
  have hdest := download_blob_dest rs fs c p "temp_model.pkl" netOk
  rw [hdl] at hdest
  cases r1 with
  | error e =>
    refine ⟨fun hok => ?_, fun _ => ?_⟩
    · simp [exceptOk] at hok
    · simpa using hdest.1
  | ok u =>
    obtain ⟨content, hcontent⟩ := Option.isSome_iff_exists.mp hdest.1
    have hfs1 : fs1 "temp_model.pkl" = some content := hcontent
    simp only [hfs1]
    cases hd : d content with
    | error e =>
      refine ⟨fun hok => ?_, fun _ => ?_⟩
      · simp [exceptOk] at hok
      · simp [hfs1]
    | ok m =>
      unfold os_remove
      simp only [hfs1]
      refine ⟨fun _ => ?_, fun hbad => ?_⟩
      · simp [fsDel]
      · simp [exceptOk] at hbad

/-- C1 (counterexample): with the model blob present and the deserialization
step raising (as it does in the code as written, where the name pickle is
unbound), load_model raises the error wrapped in MyException and the fixed
temporary file temp_model.pkl is still on disk afterwards, holding the
downloaded bytes. -/
theorem C1_counterexample :
    (load_model rsModel fsEmpty "models" "model.pkl" true pickle_load_as_written).1
        = .error (.myException (.nameError "name pickle is not defined")) ∧
    (load_model rsModel fsEmpty "models" "model.pkl" true pickle_load_as_written).2
        "temp_model.pkl" = some ['x'] := by
  constructor <;> rfl

/-- C1 (witness): a concrete run with a working deserializer succeeds and
discharges the hypothesis of the success branch of the amended theorem: the
temporary file is gone afterwards. -/
theorem C1_witness :
    exceptOk (load_model rsModel fsEmpty "models" "model.pkl" true deser_ok).1 = true ∧
    (load_model rsModel fsEmpty "models" "model.pkl" true deser_ok).2
      "temp_model.pkl" = none :=
  ⟨rfl, (C1_temp_removed_iff_success rsModel fsEmpty "models" "model.pkl" true
    deser_ok).1 rfl⟩

/-- C2 (counterexample): a transport error raised by the SDK existence check
propagates out of is_model_present instead of yielding False: only the
domain error MyException is caught there, and the Storage Service re-raises
SDK errors unchanged, so the error reaching the handler is never of that
type. -/
theorem C2_counterexample :
    is_model_present (.error (.azureError "connection failure"))
      = .error (.azureError "connection failure") := rfl

/-- C2 (amended): is_model_present returns False when the model blob is
absent (fault-free check); it returns False when the existence check raises
the domain error MyException; and it propagates unchanged any error of any
other type raised by the existence check. -/
theorem C2_is_model_present_behaviour (rs : RemoteStore) (c b : String) (e : PyError) :
    (rs.blobs (c, b) = none → is_model_present (sdkBlobExists rs c b) = .ok false) ∧
    (is_model_present (.error (.myException e)) = .ok false) ∧
    (e.isMyException = false → is_model_present (.error e) = .error e) := by
  refine ⟨fun h => ?_, rfl, fun h => ?_⟩
  · simp [is_model_present, blob_exists, sdkBlobExists, h]
  · cases e with
    | myException e0 => simp [PyError.isMyException] at h
    | valueError s => rfl
    | azureError s => rfl
    | osError s => rfl
    | nameError s => rfl

/-- C2 (witness): concrete instances of the two branches of the amended
theorem: absent blob yields ok False, a transport error propagates. -/
theorem C2_witness :
    is_model_present (sdkBlobExists rsEmpty "models" "model.pkl") = .ok false ∧
    is_model_present (.error (.azureError "x")) = .error (.azureError "x") :=
  ⟨(C2_is_model_present_behaviour rsEmpty "models" "model.pkl" (.azureError "x")).1 rfl,
   (C2_is_model_present_behaviour rsEmpty "models" "model.pkl" (.azureError "x")).2.2 rfl⟩

/-- C3 (code bug): s3_estimator.py never imports pickle, so on a fresh
adapter with the model blob present every predict call fails: the first call
performs one download, the deserialization expression raises NameError
(wrapped twice in MyException), nothing is stored in loaded_model, and a
second predict call performs another download instead of the claimed zero. -/
theorem C3_predict_never_caches_as_written :
    (predict rsModel "models" "model.pkl" true pickle_load_as_written estFresh dfW).1
      = .error (.myException (.myException (.nameError "name pickle is not defined"))) ∧
    (predict rsModel "models" "model.pkl" true pickle_load_as_written
        estFresh dfW).2.loaded_model = none ∧
    (predict rsModel "models" "model.pkl" true pickle_load_as_written
        estFresh dfW).2.downloads = 1 ∧
    (predict rsModel "models" "model.pkl" true pickle_load_as_written
        (predict rsModel "models" "model.pkl" true pickle_load_as_written
          estFresh dfW).2 dfW).2.downloads = 2 ∧
    (predict rsModel "models" "model.pkl" true pickle_load_as_written
        (predict rsModel "models" "model.pkl" true pickle_load_as_written
          estFresh dfW).2 dfW).2.loaded_model = none :=
  ⟨rfl, rfl, rfl, rfl, rfl⟩

/-- C4: constructing the Storage Service resolves the credential with the
explicit argument taking precedence over the environment variable; it raises
ValueError exactly when neither source yields a non-empty value, and
otherwise returns the resolved connection string without error. -/
theorem C4_init_resolution (arg env : Option String) :
    (exceptOk (AzureBlobStorageService_init arg env) = true ↔
      (truthy arg || truthy env) = true) ∧
    (∀ s, arg = some s → ¬ s = "" → AzureBlobStorageService_init arg env = .ok s) ∧
    (truthy arg = false ∧ truthy env = false →
      AzureBlobStorageService_init arg env =
        .error (.valueError "Azure Storage connection string is required.")) := by
  rcases arg with _ | sa <;> rcases env with _ | se
  · simp [AzureBlobStorageService_init, truthy, exceptOk]
  · by_cases hse : se = "" <;>
      simp [AzureBlobStorageService_init, truthy, exceptOk, hse]
  · by_cases hsa : sa = "" <;>
      simp [AzureBlobStorageService_init, truthy, exceptOk, hsa]
  · by_cases hsa : sa = "" <;> by_cases hse : se = "" <;>
      simp [AzureBlobStorageService_init, truthy, exceptOk, hsa, hse]

/-- C4 (witness): with both sources set and non-empty the explicit argument
wins. -/
theorem C4_witness :
    AzureBlobStorageService_init (some "cs") (some "other") = .ok "cs" :=
  (C4_init_resolution (some "cs") (some "other")).2.1 "cs" rfl (by decide)

/-- C5: a container absent from the store reads false from container_exists;
after create_container it reads true; and a second create_container on the
now-existing container leaves the store unchanged (the creation branch is
not taken) and does not fail. -/
theorem C5_create_container (rs : RemoteStore) (n : String)
    (h : container_exists rs n = false) :
    container_exists (create_container rs n) n = true ∧
    create_container (create_container rs n) n = create_container rs n := by
  have h' : rs.containers n = false := h
  have h2 : container_exists (create_container rs n) n = true := by
    simp [container_exists, create_container, h']
  refine ⟨h2, ?_⟩
  set rs1 := create_container rs n with hrs1
  unfold create_container
  simp [h2]

/-- C5 (witness): concrete empty store and container name. -/
theorem C5_witness :
    container_exists (create_container rsEmpty "data") "data" = true ∧
    create_container (create_container rsEmpty "data") "data"
      = create_container rsEmpty "data" :=
  C5_create_container rsEmpty "data" rfl

/-- C6: uploading a dataframe as CSV and reading the same container/blob
back returns an equal dataframe (column names, row order, values), for
dataframes whose fields survive the text round-trip unchanged — the coercion
carve-out of the claim, here rendered as nonempty, separator-free fields. -/
theorem C6_csv_roundtrip (rs : RemoteStore) (df : DataFrame) (c b : String)
    (h : csvExact df) :
    read_blob_as_dataframe (upload_dataframe_as_csv rs df c b) c b = .ok df := by
  unfold read_blob_as_dataframe upload_dataframe_as_csv setBlob
  simp [read_csv_to_csv df h]

/-- C6 (witness): concrete round-trip of a two-column, one-row dataframe. -/
theorem C6_witness :
    csvExact dfW ∧
    read_blob_as_dataframe (upload_dataframe_as_csv rsEmpty dfW "data" "records.csv")
      "data" "records.csv" = .ok dfW :=
  ⟨by decide, C6_csv_roundtrip rsEmpty dfW "data" "records.csv" (by decide)⟩

/-- C7: with the local file present, save_model deletes it exactly when
remove is set and the upload succeeded; when the upload raises, the local
filesystem comes back unchanged; and with remove false it is unchanged as
well. -/
theorem C7_save_model (fs : LocalFS) (rs : RemoteStore) (c p from_file : String)
    (remove netOk : Bool) (hpresent : (fs from_file).isSome = true) :
    (((save_model fs rs c p from_file remove netOk).1 = .ok () ∧ remove = true) ↔
      (save_model fs rs c p from_file remove netOk).2.1 from_file = none) ∧
    (exceptOk (save_model fs rs c p from_file remove netOk).1 = false →
      (save_model fs rs c p from_file remove netOk).2.1 = fs) ∧
    (remove = false → (save_model fs rs c p from_file remove netOk).2.1 = fs) := by
  obtain ⟨content, hcontent⟩ := Option.isSome_iff_exists.mp hpresent
  unfold save_model upload_file os_remove
  rw [hcontent]
  cases netOk
  · simp [exceptOk, hcontent]
  · cases remove
    · simp [exceptOk, hcontent]
    · simp [exceptOk, hcontent, fsDel]

/-- C7 (witness): concrete successful upload with remove set deletes the
local file. -/
theorem C7_witness :
    (fsW "model.pkl").isSome = true ∧
    (save_model fsW rsEmpty "models" "model.pkl" "model.pkl" true true).2.1
      "model.pkl" = none :=
  ⟨rfl, ((C7_save_model fsW rsEmpty "models" "model.pkl" "model.pkl" true true
    rfl).1).mp ⟨rfl, rfl⟩⟩

/-- C8: the Connection Provider keeps one handle in the class slot: a first
construction with the slot empty reads the environment variable, raising
when it is unset; a construction with a populated slot returns exactly the
cached handle and leaves the slot unchanged, never consulting the
environment argument at all — even when it has since changed or been
unset. -/
theorem C8_singleton_handle (env2 : Option String) (s cached : String) :
    (AzureBlobClient_init none none =
      .error (.valueError "Environment variable is not set.")) ∧
    (AzureBlobClient_init none (some s) = .ok (s, some s)) ∧
    (AzureBlobClient_init (some cached) env2 = .ok (cached, some cached)) :=
  ⟨rfl, rfl, rfl⟩

/-- C9: download_blob opens (and truncates) the local destination before the
remote fetch is issued; on every failing call (absent blob or transport
failure) the destination file afterwards exists with empty content, whatever
it held before. -/
theorem C9_download_truncates (rs : RemoteStore) (fs : LocalFS)
    (c b path : String) (netOk : Bool)
    (h : exceptOk (download_blob rs fs c b path netOk).1 = false) :
    (download_blob rs fs c b path netOk).2 path = some [] :=
  (download_blob_dest rs fs c b path netOk).2 h

/-- C9 (witness): fetching an absent blob into a path with prior content
fails and leaves an empty file at the destination. -/
theorem C9_witness :
    exceptOk (download_blob rsEmpty fsW "data" "missing.bin" "model.pkl" true).1
      = false ∧
    (download_blob rsEmpty fsW "data" "missing.bin" "model.pkl" true).2
      "model.pkl" = some [] :=
  ⟨rfl, C9_download_truncates rsEmpty fsW "data" "missing.bin" "model.pkl" true rfl⟩

theorem predict_downloads (rs : RemoteStore) (c p : String) (netOk : Bool)
    (d : Bytes → Except PyError MyModel) (s : EstState) (df : DataFrame)
    (h : s.loaded_model = none) :
    (predict rs c p netOk d s df).2.downloads = s.downloads + 1 := by
  unfold predict
  rw [h]
  rcases hl : load_model_st rs c p netOk d s with ⟨r, s1⟩
  have hd : s1.downloads = s.downloads + 1 := by
    have := congrArg (fun x => x.2.downloads) hl
    simpa [load_model_st] using this.symm
  cases r <;> simp [hd]

/-- C10: load_model never writes the loaded_model slot (its result is only
returned, not cached), and on an instance whose slot is empty a direct
load_model followed by a first predict performs a second download-and-
deserialize: the download counter advances by two. -/
theorem C10_load_model_frame (rs : RemoteStore) (c p : String) (netOk : Bool)
    (d : Bytes → Except PyError MyModel) (s : EstState) (df : DataFrame)
    (h : s.loaded_model = none) :
    ((load_model_st rs c p netOk d s).2.loaded_model = s.loaded_model) ∧
    ((predict rs c p netOk d (load_model_st rs c p netOk d s).2 df).2.downloads
      = s.downloads + 2) := by
  refine ⟨rfl, ?_⟩
  have h1 : (load_model_st rs c p netOk d s).2.loaded_model = none := h
  rw [predict_downloads rs c p netOk d _ df h1]
  rfl

/-- C10 (witness): fresh adapter and a working deserializer: the direct load
leaves the slot at none, and load followed by a first predict counts two
downloads. -/
theorem C10_witness :
    ((load_model_st rsModel "models" "model.pkl" true deser_ok
        estFresh).2.loaded_model = estFresh.loaded_model) ∧
    ((predict rsModel "models" "model.pkl" true deser_ok
        (load_model_st rsModel "models" "model.pkl" true deser_ok estFresh).2
        dfW).2.downloads = estFresh.downloads + 2) :=
  ⟨(C10_load_model_frame rsModel "models" "model.pkl" true deser_ok estFresh dfW rfl).1,
   (C10_load_model_frame rsModel "models" "model.pkl" true deser_ok estFresh dfW rfl).2⟩

end InsurancePipeline
